import Mathlib

/-!
Verification of the Dr3 frontend chat client (src/src/App.tsx).

The development shallowly embeds the conversation orchestrator
(handleSubmit, formatConversationHistory) and the voice capture
controller (onerror, onaudioend, startSilenceDetection, stopRecording,
the silence-poll interval and the restart-debounce timeout) as pure
state-passing functions, and proves the testable properties of the
specification against them.

Timestamps are modelled as natural numbers of milliseconds
(JavaScript Date.now), message ids as decimal strings of those numbers
(Date.now().toString()), and the JavaScript truthiness test on an
optional string field (data.id, data.message) as jsOr, which treats
both a missing field and the empty string as falsy.

Timers are modelled explicitly: a scheduled callback is a live entry
(id, parameter) in a list; clearTimeout and clearInterval remove the
entry named by the stored handle; firing a timer whose entry was
removed is a no-op. This makes cancellation and coalescing provable
rather than assumed.

Closure capture is modelled explicitly where it matters. The speech
handlers are installed by initializeSpeechRecognition, which runs from
the mount effect and is re-run only from the start branch of
toggleRecording; in both installing renders the isRecording binding is
false, and the installed callbacks keep that binding while later
renders create new ones. Reads of refs and calls of state setters go
through stable objects and see live values, but the bare isRecording
reads inside the silence-poll interval callback and the restart-debounce
timeout callback see the captured value. Those two callback bodies
therefore take the captured binding as an explicit argument, and the
installed variants fix it to false, which is what the program runs.
-/

namespace Dr3

/-- Message.sender, one of the two literal tags of the source. -/
inductive Sender where
  | user
  | ai
  deriving DecidableEq, Repr

/-- Wire role tags of the ConversationMessage interface. -/
inductive Role where
  | user
  | assistant
  deriving DecidableEq, Repr

/-- The Message interface of App.tsx: id, content, sender, timestamp. -/
structure Message where
  id : String
  content : String
  sender : Sender
  timestamp : Nat
  deriving DecidableEq, Repr

/-- The ConversationMessage wire interface: optional role, content, optional id. -/
structure ConversationMessage where
  role : Option Role
  content : String
  id : Option String
  deriving DecidableEq, Repr

/-- Parsed success body of the chat endpoint: optional id and message fields. -/
structure ChatResponse where
  id : Option String
  message : Option String
  deriving DecidableEq, Repr

/-- Outcome of the fetch: a response with its ok flag and parsed body, or a
thrown exception (network failure or a later step throwing). -/
inductive FetchResult where
  | response (ok : Bool) (data : ChatResponse)
  | thrown
  deriving DecidableEq, Repr

/-- Body of the outbound POST to the chat endpoint. -/
structure RequestBody where
  message : String
  conversation : List ConversationMessage
  deriving DecidableEq, Repr

/-- The orchestrator-visible component state: message list, pending input,
in-flight flag, recording flag, and the persisted localStorage mirror
(rewritten by the effect after every message-list update). -/
structure ChatState where
  messages : List Message
  input : String
  isLoading : Bool
  isRecording : Bool
  persisted : List Message
  deriving DecidableEq, Repr

/-- JavaScript String.prototype.trim, modelled on the character list so
that it is kernel-evaluable: drop whitespace from both ends. -/
def jsTrim (s : String) : String :=
  String.mk (((s.data.dropWhile Char.isWhitespace).reverse.dropWhile Char.isWhitespace).reverse)

/-- JavaScript x || d on an optional string: missing and empty both fall back. -/
def jsOr (v : Option String) (d : String) : String :=
  match v with
  | none => d
  | some s => if s = "" then d else s

/-- Fallback text used when the success body has a falsy message field. -/
def fallbackText : String :=
  "I apologize, but I couldn't process your dream at the moment. Please try again."

/-- Fixed apology text of the synthetic assistant message on request failure. -/
def connectErrorText : String :=
  "I apologize, but I'm having trouble connecting to the server. Please try again later."

/-- Notice surfaced on a not-allowed speech recognition error. -/
def micAlertText : String :=
  "Please allow microphone access to use voice input."

/-- The user Message built at the head of handleSubmit. -/
def mkUserMessage (input : String) (now : Nat) : Message :=
  { id := toString now, content := jsTrim input, sender := Sender.user, timestamp := now }

/-- The assistant Message built from a success body, falsy fields replaced. -/
def mkAiMessage (data : ChatResponse) (now : Nat) : Message :=
  { id := jsOr data.id (toString now),
    content := jsOr data.message fallbackText,
    sender := Sender.ai,
    timestamp := now }

/-- The synthetic assistant Message appended in the catch branch. -/
def mkErrorMessage (now : Nat) : Message :=
  { id := toString now, content := connectErrorText, sender := Sender.ai, timestamp := now }

/-- formatConversationHistory of App.tsx: project each Message to the wire shape. -/
def formatConversationHistory (messages : List Message) : List ConversationMessage :=
  messages.map fun msg =>
    if msg.sender = Sender.user then
      { role := some Role.user, content := msg.content, id := none }
    else
      { role := some Role.assistant, content := msg.content, id := some msg.id }

/-- Synchronous prefix of handleSubmit: the guard, the stop of a live
recording, the user message append (mirrored to storage by the effect),
the input clear, the in-flight flag set, and the request body built from
the history including the just-appended user message. Returns the state
and the issued request, or none when the guard makes the call a no-op. -/
def handleSubmitStart (st : ChatState) (now : Nat) : ChatState × Option RequestBody :=
  if jsTrim st.input = "" ∨ st.isLoading then (st, none)
  else
    let st0 := if st.isRecording then { st with isRecording := false } else st
    let userMessage := mkUserMessage st.input now
    let msgs1 := st0.messages ++ [userMessage]
    ({ st0 with messages := msgs1, persisted := msgs1, input := "", isLoading := true },
     some { message := userMessage.content,
            conversation := formatConversationHistory msgs1 })

/-- Continuation of handleSubmit after the fetch resolves: a success body
appends the reconciled assistant message, a non-ok response throws and is
caught, an exception is caught; both failure paths append the synthetic
error message; the finally clause clears the in-flight flag. -/
def handleSubmitFinish (st : ChatState) (aiNow : Nat) (result : FetchResult) : ChatState :=
  let aiMsg :=
    match result with
    | FetchResult.response true data => mkAiMessage data aiNow
    | FetchResult.response false _ => mkErrorMessage aiNow
    | FetchResult.thrown => mkErrorMessage aiNow
  let msgs := st.messages ++ [aiMsg]
  { st with messages := msgs, persisted := msgs, isLoading := false }

/-- A whole submission: the synchronous prefix, and when a request was
issued, the continuation applied to its outcome. -/
def handleSubmit (st : ChatState) (now aiNow : Nat) (result : FetchResult) :
    ChatState × Option RequestBody :=
  let started := handleSubmitStart st now
  match started.2 with
  | none => (started.1, none)
  | some body => (handleSubmitFinish started.1 aiNow result, some body)

/-- One user submission: the text typed (or dictated) into the buffer, the
two Date.now readings, and the outcome of the request. -/
structure Submission where
  text : String
  now : Nat
  aiNow : Nat
  result : FetchResult
  deriving Repr

/-- Set the pending input to the submission text, then run handleSubmit
to completion. -/
def submitStep (st : ChatState) (s : Submission) : ChatState :=
  (handleSubmit { st with input := s.text } s.now s.aiNow s.result).1

/-- Run a sequence of submissions in order, each completing before the next. -/
def runSubmissions (st : ChatState) (l : List Submission) : ChatState :=
  l.foldl submitStep st

/-- Component state at fresh launch: no messages, empty buffer, no request
in flight, not recording, storage cleared then rewritten empty. -/
def initialChatState : ChatState :=
  { messages := [], input := "", isLoading := false, isRecording := false, persisted := [] }

/-- The sender tags of a message list, in order. -/
def sendersOf (msgs : List Message) : List Sender :=
  msgs.map Message.sender

/-- Decides that a sender list is a whole number of user-then-assistant pairs. -/
def altUA : List Sender → Bool
  | [] => true
  | Sender.user :: Sender.ai :: rest => altUA rest
  | _ => false

/-- The Message a completed submission appends second: the reconciled
assistant message on success, the synthetic error message otherwise. -/
def finishMsg (s : Submission) : Message :=
  match s.result with
  | FetchResult.response true data => mkAiMessage data s.aiNow
  | FetchResult.response false _ => mkErrorMessage s.aiNow
  | FetchResult.thrown => mkErrorMessage s.aiNow

/-- The messages a sequence of valid submissions appends, two per submission. -/
def submissionMsgs : List Submission → List Message
  | [] => []
  | s :: rest => mkUserMessage s.text s.now :: finishMsg s :: submissionMsgs rest

/-- The wire projection exactly as the specification words it: a user entry
is role user with content and no id, an assistant entry is role assistant
with content and id, one entry per Message in sequence order. -/
def specWireShape (m : Message) : ConversationMessage :=
  match m.sender with
  | Sender.user => { role := some Role.user, content := m.content, id := none }
  | Sender.ai => { role := some Role.assistant, content := m.content, id := some m.id }

/-- Voice capture controller state. The two refs of the source are the
stored handles silenceRef (silenceTimeoutRef) and retryRef
(retryTimeoutRef); liveIntervals and liveTimeouts are the scheduler: the
entries (id, period) and (id, deadline) of callbacks that are scheduled
and neither fired nor cancelled. nextId supplies fresh handles.
restartAttempts counts executions of the restart try block, and alerts
collects the user-facing notices raised. -/
structure VoiceState where
  isRecording : Bool
  isSpeechSupported : Bool
  lastSoundAt : Nat
  silenceRef : Option Nat
  retryRef : Option Nat
  liveIntervals : List (Nat × Nat)
  liveTimeouts : List (Nat × Nat)
  nextId : Nat
  restartAttempts : Nat
  alerts : List String
  deriving DecidableEq, Repr

/-- stopRecording of App.tsx: clearInterval on the stored silence handle,
clearTimeout on the stored retry handle, null the retry ref, stop the
capability, clear the recording flag. The silence ref is not nulled by
the source and is left as stored. -/
def stopRecording (st : VoiceState) : VoiceState :=
  let ivs :=
    match st.silenceRef with
    | some h => st.liveIntervals.filter fun p => p.1 ≠ h
    | none => st.liveIntervals
  let tos :=
    match st.retryRef with
    | some h => st.liveTimeouts.filter fun p => p.1 ≠ h
    | none => st.liveTimeouts
  { st with liveIntervals := ivs, liveTimeouts := tos,
            retryRef := none, isRecording := false }

/-- startSilenceDetection: clearInterval on any stored handle, then arm a
fresh 500 ms interval and store its handle. -/
def startSilenceDetection (st : VoiceState) : VoiceState :=
  let ivs :=
    match st.silenceRef with
    | some h => st.liveIntervals.filter fun p => p.1 ≠ h
    | none => st.liveIntervals
  { st with liveIntervals := ivs ++ [(st.nextId, 500)],
            silenceRef := some st.nextId, nextId := st.nextId + 1 }

/-- The onstart handler: set the recording flag, reset lastSoundAt to now,
arm silence detection. -/
def onstartH (st : VoiceState) (now : Nat) : VoiceState :=
  startSilenceDetection { st with isRecording := true, lastSoundAt := now }

/-- Body of the silence-poll interval callback: stop when at least 3000 ms
have passed since lastSoundAt and the isRecording binding the callback
closed over is set. The callback is a closure, so this isRecording is
not the live state but the value of the render that created the handler,
passed here as the captured argument. -/
def silenceCheck (captured : Bool) (st : VoiceState) (now : Nat) : VoiceState :=
  if 3000 ≤ now - st.lastSoundAt ∧ captured = true then stopRecording st else st

/-- The silence-poll callback as the program installs it. The handler
chain that creates the interval (onstart calling startSilenceDetection)
is built by initializeSpeechRecognition in renders where isRecording is
false, so the captured binding is false. -/
def installedSilenceCheck (st : VoiceState) (now : Nat) : VoiceState :=
  silenceCheck false st now

/-- The scheduler firing the silence-poll interval with handle id at time
now: a cancelled interval does nothing; a live one runs the installed
callback and stays scheduled (intervals recur). -/
def silencePollFire (st : VoiceState) (id : Nat) (now : Nat) : VoiceState :=
  if st.liveIntervals.any (fun p => p.1 = id) then installedSilenceCheck st now else st

/-- The onaudioend handler: the same 3000 ms comparison, applied at once. -/
def onaudioendH (st : VoiceState) (now : Nat) : VoiceState :=
  if 3000 ≤ now - st.lastSoundAt then stopRecording st else st

/-- The onerror handler of App.tsx. A not-allowed error raises the notice
and clears the supported flag. A network error cancels any pending
restart timeout through the stored handle and arms a fresh one with a
1000 ms deadline, storing its handle. Every other error stops recording. -/
def onerrorH (st : VoiceState) (err : String) (now : Nat) : VoiceState :=
  if err = "not-allowed" then
    { st with alerts := st.alerts ++ [micAlertText], isSpeechSupported := false }
  else if err = "network" then
    let tos :=
      match st.retryRef with
      | some h => st.liveTimeouts.filter fun p => p.1 ≠ h
      | none => st.liveTimeouts
    { st with liveTimeouts := tos ++ [(st.nextId, now + 1000)],
              retryRef := some st.nextId, nextId := st.nextId + 1 }
  else stopRecording st

/-- The scheduler firing the restart-debounce timeout with handle id: a
cancelled timeout does nothing; a live one is consumed, and its body
tests the isRecording binding it closed over (the captured argument, not
the live state): when that holds, the restart try block executes
(counted in restartAttempts), reaching onstart when the capability start
succeeds and falling to the catch with stopRecording when it throws. The
source does not null the retry ref inside the callback. -/
def fireRetry (captured : Bool) (st : VoiceState) (id : Nat) (now : Nat)
    (startOk : Bool) : VoiceState :=
  if st.liveTimeouts.any (fun p => p.1 = id) then
    let st1 := { st with liveTimeouts := st.liveTimeouts.filter fun p => p.1 ≠ id }
    if captured = true then
      let st2 := { st1 with restartAttempts := st1.restartAttempts + 1 }
      if startOk then onstartH st2 now else stopRecording st2
    else st1
  else st

/-- The restart-debounce callback as the program installs it: the onerror
handler that schedules it is created by initializeSpeechRecognition in
renders where isRecording is false, so the captured binding is false. -/
def installedFireRetry (st : VoiceState) (id : Nat) (now : Nat) (startOk : Bool) : VoiceState :=
  fireRetry false st id now startOk

/-- The onend handler: when no retry handle is stored, stop recording. -/
def onendH (st : VoiceState) : VoiceState :=
  if st.retryRef = none then stopRecording st else st

/-- Ownership invariant of the controller timers: at most one silence
interval is live and its handle is the stored one, and at most one retry
timeout is live and its handle is the stored one. -/
def VoiceInv (st : VoiceState) : Prop :=
  (st.liveIntervals = [] ∨ ∃ h p, st.silenceRef = some h ∧ st.liveIntervals = [(h, p)]) ∧
  (st.liveTimeouts = [] ∨ ∃ h d, st.retryRef = some h ∧ st.liveTimeouts = [(h, d)])

section Lemmas

open Dr3

/-- Unfolding of a valid whole submission: the user message and the
outcome-determined second message are appended, the buffer is cleared,
the flags end false, the mirror tracks the list, and the request carries
the trimmed text with the projected history. -/
theorem handleSubmit_valid_eq (st : ChatState) (now aiNow : Nat) (r : FetchResult)
    (h1 : jsTrim st.input ≠ "") (h2 : st.isLoading = false) :
    handleSubmit st now aiNow r =
      ({ messages := st.messages ++ [mkUserMessage st.input now,
           finishMsg ⟨st.input, now, aiNow, r⟩],
         input := "", isLoading := false, isRecording := false,
         persisted := st.messages ++ [mkUserMessage st.input now,
           finishMsg ⟨st.input, now, aiNow, r⟩] },
       some { message := jsTrim st.input,
              conversation :=
                formatConversationHistory (st.messages ++ [mkUserMessage st.input now]) }) := by
  have hg : ¬ (jsTrim st.input = "" ∨ st.isLoading = true) := by
    intro h; rcases h with h | h
    · exact h1 h
    · rw [h2] at h; exact Bool.false_ne_true h
  unfold handleSubmit handleSubmitStart handleSubmitFinish finishMsg
  simp only [h2, Bool.false_eq_true, or_false, if_neg h1]
  cases hrec : st.isRecording <;> cases r with
  | thrown => simp [hrec, mkUserMessage, List.append_assoc]
  | response ok data =>
      cases ok <;> simp [hrec, mkUserMessage, List.append_assoc]

/-- The second message of a completed submission is assistant-tagged in
every outcome. -/
theorem finishMsg_sender (s : Submission) : (finishMsg s).sender = Sender.ai := by
  cases hr : s.result with
  | thrown => simp [finishMsg, hr, mkErrorMessage]
  | response ok data => cases ok <;> simp [finishMsg, hr, mkAiMessage, mkErrorMessage]

/-- Two messages are produced per submission. -/
theorem submissionMsgs_length (l : List Submission) :
    (submissionMsgs l).length = 2 * l.length := by
  induction l with
  | nil => rfl
  | cons s rest ih => simp [submissionMsgs, ih]; omega

/-- The messages produced by submissions alternate user then assistant. -/
theorem altUA_submissionMsgs (l : List Submission) :
    altUA (sendersOf (submissionMsgs l)) = true := by
  induction l with
  | nil => rfl
  | cons s rest ih =>
      have h := finishMsg_sender s
      simp only [submissionMsgs, sendersOf, List.map_cons] at *
      rw [h]
      show altUA (Sender.user :: Sender.ai :: List.map Message.sender (submissionMsgs rest)) = true
      rw [show altUA (Sender.user :: Sender.ai :: List.map Message.sender (submissionMsgs rest)) =
            altUA (List.map Message.sender (submissionMsgs rest)) from rfl]
      exact ih

/-- Running valid submissions from a settled state appends exactly the
produced message pairs and ends with the in-flight flag clear. -/
theorem runSubmissions_valid (l : List Submission) :
    ∀ st : ChatState, st.isLoading = false → (∀ s ∈ l, jsTrim s.text ≠ "") →
    (runSubmissions st l).messages = st.messages ++ submissionMsgs l ∧
    (runSubmissions st l).isLoading = false := by
  induction l with
  | nil =>
      intro st h _
      exact ⟨by simp [runSubmissions, submissionMsgs], by simpa [runSubmissions] using h⟩
  | cons s rest ih =>
      intro st hload hval
      have hs : jsTrim s.text ≠ "" := hval s (List.mem_cons_self s rest)
      have he := handleSubmit_valid_eq { st with input := s.text } s.now s.aiNow s.result hs hload
      have hstep : submitStep st s =
          { messages := st.messages ++ [mkUserMessage s.text s.now, finishMsg s],
            input := "", isLoading := false, isRecording := false,
            persisted := st.messages ++ [mkUserMessage s.text s.now, finishMsg s] } := by
        show (handleSubmit { st with input := s.text } s.now s.aiNow s.result).1 = _
        rw [he]
      have hrun : runSubmissions st (s :: rest) = runSubmissions (submitStep st s) rest := rfl
      obtain ⟨ihm, ihl⟩ := ih (submitStep st s) (by rw [hstep])
        (fun x hx => hval x (List.mem_cons_of_mem s hx))
      refine ⟨?_, by rw [hrun]; exact ihl⟩
      rw [hrun, ihm, hstep]
      simp [submissionMsgs]

/-- Firing a handle with no live timeout entry is a no-op, whatever
binding the callback captured. -/
theorem fireRetry_not_live (captured : Bool) (s : VoiceState) (id n : Nat) (ok : Bool)
    (h : s.liveTimeouts.any (fun p => p.1 = id) = false) :
    fireRetry captured s id n ok = s := by
  unfold fireRetry
  rw [h]
  simp

end Lemmas

section Claims

open Dr3

/-- C1: every sequence of N valid submissions (non-empty trimmed input,
none issued while another is in flight) yields exactly 2N messages
alternating user then assistant, whatever each request outcome was; and
each single valid submission appends exactly one user message followed by
exactly one outcome message. -/
theorem submissions_balanced_alternating (l : List Submission)
    (hval : ∀ s ∈ l, jsTrim s.text ≠ "") :
    (runSubmissions initialChatState l).messages.length = 2 * l.length ∧
    altUA (sendersOf (runSubmissions initialChatState l).messages) = true ∧
    (∀ (st : ChatState) (s : Submission), st.isLoading = false → jsTrim s.text ≠ "" →
      (submitStep st s).messages =
        st.messages ++ [mkUserMessage s.text s.now, finishMsg s]) := by
  obtain ⟨hm, _⟩ := runSubmissions_valid l initialChatState rfl hval
  refine ⟨?_, ?_, ?_⟩
  · rw [hm]; simp [initialChatState, submissionMsgs_length]
  · rw [hm]
    have : (initialChatState.messages ++ submissionMsgs l) = submissionMsgs l := by
      simp [initialChatState]
    rw [this]
    exact altUA_submissionMsgs l
  · intro st s h1 h2
    have he := handleSubmit_valid_eq { st with input := s.text } s.now s.aiNow s.result h2 h1
    show (handleSubmit { st with input := s.text } s.now s.aiNow s.result).1.messages = _
    rw [he]

/-- Concrete run of two submissions, one failing and one succeeding,
checking the 2N alternating shape. -/
theorem submissions_balanced_alternating_witness :
    (∀ s ∈ ([⟨"I was falling", 1, 2, FetchResult.thrown⟩,
             ⟨"  and then I flew  ", 3, 4,
              FetchResult.response true ⟨some "b2", some "A sign of release."⟩⟩] :
        List Submission), jsTrim s.text ≠ "") ∧
    ((runSubmissions initialChatState
        [⟨"I was falling", 1, 2, FetchResult.thrown⟩,
         ⟨"  and then I flew  ", 3, 4,
          FetchResult.response true ⟨some "b2", some "A sign of release."⟩⟩]).messages.length =
       2 * 2 ∧
     altUA (sendersOf (runSubmissions initialChatState
        [⟨"I was falling", 1, 2, FetchResult.thrown⟩,
         ⟨"  and then I flew  ", 3, 4,
          FetchResult.response true ⟨some "b2", some "A sign of release."⟩⟩]).messages) = true ∧
     (∀ (st : ChatState) (s : Submission), st.isLoading = false → jsTrim s.text ≠ "" →
       (submitStep st s).messages =
         st.messages ++ [mkUserMessage s.text s.now, finishMsg s])) :=
  ⟨by decide, submissions_balanced_alternating _ (by decide)⟩

/-- C2: with an empty or whitespace-only trimmed buffer, or with a prior
submission still in flight, handleSubmit returns the state unchanged (no
message appended, flags and persisted mirror untouched) and issues no
request. -/
theorem handleSubmit_guard_noop (st : ChatState) (now aiNow : Nat) (r : FetchResult)
    (h : jsTrim st.input = "" ∨ st.isLoading = true) :
    handleSubmit st now aiNow r = (st, none) := by
  unfold handleSubmit handleSubmitStart
  rcases h with h | h <;> simp [h]

/-- Concrete no-op checks: a whitespace-only buffer, and a submission
attempted while one is in flight. -/
theorem handleSubmit_guard_noop_witness :
    (jsTrim (ChatState.mk [] "   " false false []).input = "" ∨
      (ChatState.mk [] "   " false false []).isLoading = true) ∧
    handleSubmit (ChatState.mk [] "   " false false []) 5 6 FetchResult.thrown =
      (ChatState.mk [] "   " false false [], none) ∧
    handleSubmit (ChatState.mk [] "dream" true false []) 5 6 FetchResult.thrown =
      (ChatState.mk [] "dream" true false [], none) :=
  ⟨Or.inl (by decide),
   handleSubmit_guard_noop _ 5 6 FetchResult.thrown (Or.inl (by decide)),
   handleSubmit_guard_noop _ 5 6 FetchResult.thrown (Or.inr (by decide))⟩

/-- C3: for a valid submission whose request fails (non-2xx response or a
thrown exception), exactly one synthetic assistant message is appended
after the user message, carrying the fixed apology text and the freshly
generated id of its Date.now reading; and the in-flight flag is false
after the submission completes in every outcome. -/
theorem failure_appends_apology (st : ChatState) (now aiNow : Nat) (r : FetchResult)
    (h1 : jsTrim st.input ≠ "") (h2 : st.isLoading = false) :
    (handleSubmit st now aiNow r).1.isLoading = false ∧
    (∀ data, r = FetchResult.response false data →
      (handleSubmit st now aiNow r).1.messages =
        st.messages ++ [mkUserMessage st.input now, mkErrorMessage aiNow]) ∧
    (r = FetchResult.thrown →
      (handleSubmit st now aiNow r).1.messages =
        st.messages ++ [mkUserMessage st.input now, mkErrorMessage aiNow]) ∧
    (mkErrorMessage aiNow).content = connectErrorText ∧
    (mkErrorMessage aiNow).id = toString aiNow ∧
    (mkErrorMessage aiNow).sender = Sender.ai := by
  have he := handleSubmit_valid_eq st now aiNow r h1 h2
  refine ⟨by rw [he], ?_, ?_, rfl, rfl, rfl⟩
  · intro data hr
    subst hr
    rw [he]
    simp [finishMsg]
  · intro hr
    subst hr
    rw [he]
    simp [finishMsg]

/-- Concrete failed submission: a 500-class response appends the apology
message and clears the in-flight flag. -/
theorem failure_appends_apology_witness :
    (jsTrim (ChatState.mk [] "I was lost" false false []).input ≠ "" ∧
      (ChatState.mk [] "I was lost" false false []).isLoading = false) ∧
    ((handleSubmit (ChatState.mk [] "I was lost" false false []) 7 8
        (FetchResult.response false ⟨none, none⟩)).1.isLoading = false ∧
     (∀ data, FetchResult.response false ⟨none, none⟩ = FetchResult.response false data →
       (handleSubmit (ChatState.mk [] "I was lost" false false []) 7 8
          (FetchResult.response false ⟨none, none⟩)).1.messages =
         (ChatState.mk [] "I was lost" false false []).messages ++
           [mkUserMessage "I was lost" 7, mkErrorMessage 8]) ∧
     (FetchResult.response false ⟨none, none⟩ = FetchResult.thrown →
       (handleSubmit (ChatState.mk [] "I was lost" false false []) 7 8
          (FetchResult.response false ⟨none, none⟩)).1.messages =
         (ChatState.mk [] "I was lost" false false []).messages ++
           [mkUserMessage "I was lost" 7, mkErrorMessage 8]) ∧
     (mkErrorMessage 8).content = connectErrorText ∧
     (mkErrorMessage 8).id = toString 8 ∧
     (mkErrorMessage 8).sender = Sender.ai) :=
  ⟨⟨by decide, by decide⟩,
   failure_appends_apology _ 7 8 (FetchResult.response false ⟨none, none⟩)
     (by decide) (by decide)⟩

/-- C7: the code projection formatConversationHistory coincides with the
wire shape the specification describes (user entries carry role user and
content with no id, assistant entries carry role assistant, content and
id, one entry per Message in order), and a valid submission issues the
request carrying the trimmed latest text together with the projection of
the history including the just-appended user message. -/
theorem wire_projection_correct :
    (∀ msgs : List Message, formatConversationHistory msgs = msgs.map specWireShape) ∧
    (∀ (st : ChatState) (now : Nat), jsTrim st.input ≠ "" → st.isLoading = false →
      (handleSubmitStart st now).2 =
        some { message := jsTrim st.input,
               conversation :=
                 formatConversationHistory (st.messages ++ [mkUserMessage st.input now]) }) := by
  constructor
  · intro msgs
    induction msgs with
    | nil => rfl
    | cons m t ih =>
        cases hm : m.sender <;>
          simp [formatConversationHistory, specWireShape, hm] <;>
          simpa [formatConversationHistory] using ih
  · intro st now h1 h2
    unfold handleSubmitStart
    rw [if_neg (by simp [h1, h2])]
    cases hrec : st.isRecording <;> simp [hrec, mkUserMessage]

/-- Concrete projection of a two-message history and the request issued
for a concrete submission. -/
theorem wire_projection_correct_witness :
    formatConversationHistory
        [Message.mk "1" "I was flying" Sender.user 1,
         Message.mk "a1" "Freedom." Sender.ai 2] =
      [Message.mk "1" "I was flying" Sender.user 1,
       Message.mk "a1" "Freedom." Sender.ai 2].map specWireShape ∧
    (jsTrim (ChatState.mk [] " deep water " false false []).input ≠ "" ∧
      (ChatState.mk [] " deep water " false false []).isLoading = false) ∧
    (handleSubmitStart (ChatState.mk [] " deep water " false false []) 9).2 =
      some { message := jsTrim " deep water ",
             conversation :=
               formatConversationHistory ([] ++ [mkUserMessage " deep water " 9]) } :=
  ⟨wire_projection_correct.1 _, ⟨by decide, by decide⟩,
   wire_projection_correct.2 (ChatState.mk [] " deep water " false false []) 9
     (by decide) (by decide)⟩

/-- C8: submitting I was flying with a successful body carrying id a1 and
the interpretation text leaves the conversation ending with that user
message followed by the assistant message with id a1 and that content. -/
theorem flying_scenario :
    (handleSubmit (ChatState.mk [] "I was flying" false false []) 1 2
        (FetchResult.response true
          ⟨some "a1", some "Flying often symbolizes freedom."⟩)).1.messages =
      [Message.mk "1" "I was flying" Sender.user 1,
       Message.mk "a1" "Flying often symbolizes freedom." Sender.ai 2] := by
  decide

/-- C10: optional fields of a success body are tested by truthiness, not
presence: an empty-string message yields the fallback text and an
empty-string id yields the freshly generated one, exactly as a missing
field does, while truthy fields are taken as given; and the success path
of handleSubmit appends exactly this reconciled assistant message. -/
theorem truthiness_fallback :
    (∀ now : Nat,
      (mkAiMessage ⟨some "", some ""⟩ now).content = fallbackText ∧
      (mkAiMessage ⟨some "", some ""⟩ now).id = toString now) ∧
    (∀ now : Nat,
      (mkAiMessage ⟨none, none⟩ now).content = fallbackText ∧
      (mkAiMessage ⟨none, none⟩ now).id = toString now) ∧
    (∀ (now : Nat) (i m : String), i ≠ "" → m ≠ "" →
      (mkAiMessage ⟨some i, some m⟩ now).content = m ∧
      (mkAiMessage ⟨some i, some m⟩ now).id = i) ∧
    (∀ (st : ChatState) (now aiNow : Nat) (data : ChatResponse),
      jsTrim st.input ≠ "" → st.isLoading = false →
      (handleSubmit st now aiNow (FetchResult.response true data)).1.messages =
        st.messages ++ [mkUserMessage st.input now, mkAiMessage data aiNow]) := by
  refine ⟨fun now => ⟨rfl, rfl⟩, fun now => ⟨rfl, rfl⟩, ?_, ?_⟩
  · intro now i m hi hm
    constructor <;> simp [mkAiMessage, jsOr, hi, hm]
  · intro st now aiNow data h1 h2
    have he := handleSubmit_valid_eq st now aiNow (FetchResult.response true data) h1 h2
    rw [he]
    simp [finishMsg]

/-- Concrete truthiness checks: empty-string fields fall back, nonempty
fields are kept, and the success path appends the reconciled message. -/
theorem truthiness_fallback_witness :
    ((mkAiMessage ⟨some "", some ""⟩ 3).content = fallbackText ∧
     (mkAiMessage ⟨some "", some ""⟩ 3).id = toString 3) ∧
    (("x7" : String) ≠ "" ∧ ("All is well." : String) ≠ "") ∧
    ((mkAiMessage ⟨some "x7", some "All is well."⟩ 3).content = "All is well." ∧
     (mkAiMessage ⟨some "x7", some "All is well."⟩ 3).id = "x7") ∧
    (handleSubmit (ChatState.mk [] "a door" false false []) 4 5
        (FetchResult.response true ⟨some "", some ""⟩)).1.messages =
      [] ++ [mkUserMessage "a door" 4, mkAiMessage ⟨some "", some ""⟩ 5] :=
  ⟨truthiness_fallback.1 3, ⟨by decide, by decide⟩,
   truthiness_fallback.2.2.1 3 "x7" "All is well." (by decide) (by decide),
   truthiness_fallback.2.2.2 (ChatState.mk [] "a door" false false []) 4 5
     ⟨some "", some ""⟩ (by decide) (by decide)⟩

/-- C4 fails on the code: the audioend path does stop a session 3000 ms
past lastSoundAt, but the silence-poll path is dead. The poll callback
closed over isRecording = false, so its guard (written as the
conjunction silenceDuration at least 3000 and isRecording, clearly
intending the live flag) never holds, and a firing poll interval never
changes the state: for every state and every handle the firing is the
identity. Concretely, a Listening session with a live interval and 3000
ms of silence survives the poll firing unchanged, recording still on,
while the audioend signal at the same instant stops it. -/
theorem silence_poll_dead :
    (∀ (st : VoiceState) (id now : Nat), silencePollFire st id now = st) ∧
    (VoiceState.mk true true 100 (some 0) none [(0, 500)] [] 1 0 []).isRecording = true ∧
    3000 ≤ 3100 - (VoiceState.mk true true 100 (some 0) none [(0, 500)] [] 1 0
      []).lastSoundAt ∧
    silencePollFire (VoiceState.mk true true 100 (some 0) none [(0, 500)] [] 1 0 [])
        0 3100 =
      VoiceState.mk true true 100 (some 0) none [(0, 500)] [] 1 0 [] ∧
    (silencePollFire (VoiceState.mk true true 100 (some 0) none [(0, 500)] [] 1 0 [])
        0 3100).isRecording = true ∧
    (onaudioendH (VoiceState.mk true true 100 (some 0) none [(0, 500)] [] 1 0 [])
        3100).isRecording = false := by
  refine ⟨?_, by decide, by decide, by decide, by decide, by decide⟩
  intro st id now
  unfold silencePollFire installedSilenceCheck silenceCheck
  simp

/-- C5 fails on the code: the debounce coalescing itself is real, two
network errors within the window leaving exactly one live re-armed
timeout, the cancelled handle inert; but when the debounce elapses the
callback performs zero restart attempts, not one. The timeout callback
closed over isRecording = false, so the guarded try block with
stop and start (whose log line shows the restart is clearly intended)
never executes: for every state, every handle and either start outcome
the firing leaves restartAttempts and the recording flag unchanged.
Concretely, after two coalesced network errors from a Listening state
the surviving timeout fires with a working start available and the
attempt count stays zero, while the same firing with the guard
evaluated on the live flag, as written, would perform exactly one
attempt. -/
theorem debounce_restart_never_fires :
    (onerrorH (VoiceState.mk true true 0 (some 0) none [(0, 500)] [] 1 0 [])
        "network" 50).liveTimeouts = [(1, 1050)] ∧
    (onerrorH (onerrorH (VoiceState.mk true true 0 (some 0) none [(0, 500)] [] 1 0 [])
        "network" 50) "network" 400).liveTimeouts = [(2, 1400)] ∧
    installedFireRetry (onerrorH (onerrorH (VoiceState.mk true true 0 (some 0) none
        [(0, 500)] [] 1 0 []) "network" 50) "network" 400) 1 1400 true =
      onerrorH (onerrorH (VoiceState.mk true true 0 (some 0) none [(0, 500)] [] 1 0 [])
        "network" 50) "network" 400 ∧
    (∀ (st : VoiceState) (id now : Nat) (ok : Bool),
      (installedFireRetry st id now ok).restartAttempts = st.restartAttempts ∧
      (installedFireRetry st id now ok).isRecording = st.isRecording) ∧
    (installedFireRetry (onerrorH (onerrorH (VoiceState.mk true true 0 (some 0) none
        [(0, 500)] [] 1 0 []) "network" 50) "network" 400) 2 1400 true).restartAttempts =
      0 ∧
    (installedFireRetry (onerrorH (onerrorH (VoiceState.mk true true 0 (some 0) none
        [(0, 500)] [] 1 0 []) "network" 50) "network" 400) 2 1400 true).isRecording =
      true ∧
    (fireRetry true (onerrorH (onerrorH (VoiceState.mk true true 0 (some 0) none
        [(0, 500)] [] 1 0 []) "network" 50) "network" 400) 2 1400 true).restartAttempts =
      1 := by
  refine ⟨by decide, by decide, by decide, ?_, by decide, by decide, by decide⟩
  intro st id now ok
  unfold installedFireRetry fireRetry
  by_cases hmem : st.liveTimeouts.any (fun p => p.1 = id) = true
  · rw [if_pos hmem]
    simp
  · rw [if_neg hmem]
    exact ⟨rfl, rfl⟩

/-- C9: under the controller ownership discipline (at most one live
silence interval and one live restart timeout, their handles the stored
ones), stopRecording leaves no live interval, no live timeout, a nulled
retry ref and a cleared recording flag, and every later timer firing on
the stopped state is a no-op, so nothing can resurrect the session. -/
theorem stop_cancels_timers (st : VoiceState) (hinv : VoiceInv st) :
    (stopRecording st).liveIntervals = [] ∧
    (stopRecording st).liveTimeouts = [] ∧
    (stopRecording st).retryRef = none ∧
    (stopRecording st).isRecording = false ∧
    (∀ (captured : Bool) (id fnow : Nat) (ok : Bool),
      fireRetry captured (stopRecording st) id fnow ok = stopRecording st) ∧
    (∀ id fnow, silencePollFire (stopRecording st) id fnow = stopRecording st) := by
  obtain ⟨hiv, hto⟩ := hinv
  have h1 : (stopRecording st).liveIntervals = [] := by
    rcases hiv with h | ⟨h, p, href, hl⟩
    · cases hr : st.silenceRef <;> simp [stopRecording, hr, h]
    · simp [stopRecording, href, hl]
  have h2 : (stopRecording st).liveTimeouts = [] := by
    rcases hto with h | ⟨h, d, href, hl⟩
    · cases hr : st.retryRef <;> simp [stopRecording, hr, h]
    · simp [stopRecording, href, hl]
  refine ⟨h1, h2, by simp [stopRecording], by simp [stopRecording], ?_, ?_⟩
  · intro captured id fnow ok
    exact fireRetry_not_live captured _ _ _ _ (by rw [h2]; rfl)
  · intro id fnow
    unfold silencePollFire
    rw [if_neg (by rw [h1]; simp)]

/-- Concrete stop of a session owning both a live silence interval and a
pending restart timeout: both are cancelled and later firings are inert. -/
theorem stop_cancels_timers_witness :
    VoiceInv (VoiceState.mk true true 0 (some 0) (some 1) [(0, 500)] [(1, 1000)] 2 0 []) ∧
    ((stopRecording (VoiceState.mk true true 0 (some 0) (some 1) [(0, 500)] [(1, 1000)] 2 0
        [])).liveIntervals = [] ∧
     (stopRecording (VoiceState.mk true true 0 (some 0) (some 1) [(0, 500)] [(1, 1000)] 2 0
        [])).liveTimeouts = [] ∧
     (stopRecording (VoiceState.mk true true 0 (some 0) (some 1) [(0, 500)] [(1, 1000)] 2 0
        [])).retryRef = none ∧
     (stopRecording (VoiceState.mk true true 0 (some 0) (some 1) [(0, 500)] [(1, 1000)] 2 0
        [])).isRecording = false ∧
     (∀ (captured : Bool) (id fnow : Nat) (ok : Bool),
       fireRetry captured (stopRecording (VoiceState.mk true true 0 (some 0) (some 1)
          [(0, 500)] [(1, 1000)] 2 0 [])) id fnow ok =
         stopRecording (VoiceState.mk true true 0 (some 0) (some 1) [(0, 500)] [(1, 1000)]
          2 0 [])) ∧
     (∀ id fnow, silencePollFire (stopRecording (VoiceState.mk true true 0 (some 0) (some 1)
        [(0, 500)] [(1, 1000)] 2 0 [])) id fnow =
       stopRecording (VoiceState.mk true true 0 (some 0) (some 1) [(0, 500)] [(1, 1000)] 2 0
        []))) :=
  ⟨⟨Or.inr ⟨0, 500, rfl, rfl⟩, Or.inr ⟨1, 1000, rfl, rfl⟩⟩,
   stop_cancels_timers _ ⟨Or.inr ⟨0, 500, rfl, rfl⟩, Or.inr ⟨1, 1000, rfl, rfl⟩⟩⟩

/-- C6 fails on the code: on a not-allowed (permission denied) error, a
non-network error, the onerror handler raises the notice and clears the
supported flag but does not stop recording and cancels no timer, so the
session does not transition to Idle. Concretely, from a Listening state
with a live silence interval, the recording flag is still set and the
interval still live after the handler runs. -/
theorem notallowed_keeps_recording :
    (VoiceState.mk true true 0 (some 0) none [(0, 500)] [] 1 0 []).isRecording = true ∧
    (onerrorH (VoiceState.mk true true 0 (some 0) none [(0, 500)] [] 1 0 [])
       "not-allowed" 5).isRecording = true ∧
    (onerrorH (VoiceState.mk true true 0 (some 0) none [(0, 500)] [] 1 0 [])
       "not-allowed" 5).liveIntervals = [(0, 500)] ∧
    (onerrorH (VoiceState.mk true true 0 (some 0) none [(0, 500)] [] 1 0 [])
       "not-allowed" 5).isSpeechSupported = false := by
  decide

/-- C6 amended: a non-network error other than not-allowed stops the
session (the handler runs stopRecording, clearing the recording flag and
cancelling the stored timers); a not-allowed error instead downgrades
the controller to unsupported and surfaces the notice, leaving the
recording flag and the timers untouched. -/
theorem nonnetwork_error_behavior (st : VoiceState) (err : String) (now : Nat)
    (hrec : st.isRecording = true) :
    (err ≠ "not-allowed" → err ≠ "network" →
      onerrorH st err now = stopRecording st ∧
      (onerrorH st err now).isRecording = false ∧
      (onerrorH st err now).retryRef = none) ∧
    ((onerrorH st "not-allowed" now).isSpeechSupported = false ∧
     (onerrorH st "not-allowed" now).alerts = st.alerts ++ [micAlertText] ∧
     (onerrorH st "not-allowed" now).isRecording = true ∧
     (onerrorH st "not-allowed" now).liveIntervals = st.liveIntervals ∧
     (onerrorH st "not-allowed" now).liveTimeouts = st.liveTimeouts) := by
  constructor
  · intro hna hnet
    have he : onerrorH st err now = stopRecording st := by
      unfold onerrorH
      rw [if_neg hna, if_neg hnet]
    exact ⟨he, by rw [he]; simp [stopRecording], by rw [he]; simp [stopRecording]⟩
  · refine ⟨?_, ?_, ?_, ?_, ?_⟩ <;> simp [onerrorH, hrec]

/-- Concrete aborted error while Listening: the handler equals
stopRecording; and the not-allowed branch leaves the flag set. -/
theorem nonnetwork_error_behavior_witness :
    (VoiceState.mk true true 0 (some 0) none [(0, 500)] [] 1 0 []).isRecording = true ∧
    (("aborted" : String) ≠ "not-allowed" ∧ ("aborted" : String) ≠ "network") ∧
    onerrorH (VoiceState.mk true true 0 (some 0) none [(0, 500)] [] 1 0 [])
        "aborted" 9 =
      stopRecording (VoiceState.mk true true 0 (some 0) none [(0, 500)] [] 1 0 []) ∧
    (onerrorH (VoiceState.mk true true 0 (some 0) none [(0, 500)] [] 1 0 [])
        "aborted" 9).isRecording = false ∧
    (onerrorH (VoiceState.mk true true 0 (some 0) none [(0, 500)] [] 1 0 [])
        "not-allowed" 9).isRecording = true :=
  ⟨by decide, ⟨by decide, by decide⟩,
   ((nonnetwork_error_behavior (VoiceState.mk true true 0 (some 0) none [(0, 500)] [] 1 0 [])
       "aborted" 9 (by decide)).1 (by decide) (by decide)).1,
   ((nonnetwork_error_behavior (VoiceState.mk true true 0 (some 0) none [(0, 500)] [] 1 0 [])
       "aborted" 9 (by decide)).1 (by decide) (by decide)).2.1,
   (nonnetwork_error_behavior (VoiceState.mk true true 0 (some 0) none [(0, 500)] [] 1 0 [])
       "aborted" 9 (by decide)).2.2.2.1⟩

end Claims

end Dr3
